import Mathlib

/-!
Verification development for `transcripts/convert_to_markdown.py`, a script
that converts a Claude Code conversation JSONL file into readable Markdown.

The embedding models JSON values (`JVal`), the Python helpers the script
relies on (`dict.get`, `str(...)`, truthiness), the two regex substitutions
of `clean_text` (non-greedy, DOTALL, all occurrences), the content extractor
`extract_text_content`, and the main conversion loop
`convert_jsonl_to_markdown` as a fold over decoded entries.  Paths on which
the Python code would raise an exception (e.g. calling `.get` on a non-dict,
or joining a non-string) are modelled by `Option`/`none`.
-/

/-- A JSON value, as produced by `json.loads`.  Numbers are modelled as
integers (no claim depends on float behaviour); objects are association
lists (JSON objects decoded by `json.loads` have unique keys). -/
inductive JVal where
  | str (s : String)
  | num (n : Int)
  | bool (b : Bool)
  | null
  | arr (elems : List JVal)
  | obj (fields : List (String × JVal))

mutual

/-- Python `repr` of a decoded-JSON value (simplified: string quoting assumes
no embedded quote characters, which holds for every input used here). -/
def pyRepr : JVal → String
  | JVal.str s => "\x27" ++ s ++ "\x27"
  | JVal.num n => toString n
  | JVal.bool b => if b then "True" else "False"
  | JVal.null => "None"
  | JVal.arr xs => "[" ++ pyReprElems xs ++ "]"
  | JVal.obj fs => "\x7b" ++ pyReprFields fs ++ "\x7d"

/-- Comma-joined `repr`s of the elements of a list. -/
def pyReprElems : List JVal → String
  | [] => ""
  | [x] => pyRepr x
  | x :: y :: rest => pyRepr x ++ ", " ++ pyReprElems (y :: rest)

/-- Comma-joined `key: value` entries of a dict `repr`. -/
def pyReprFields : List (String × JVal) → String
  | [] => ""
  | [(k, v)] => "\x27" ++ k ++ "\x27: " ++ pyRepr v
  | (k, v) :: p :: rest => "\x27" ++ k ++ "\x27: " ++ pyRepr v ++ ", " ++ pyReprFields (p :: rest)

end

/-- Python `str(...)` of a decoded-JSON value: strings print without quotes,
everything else prints as its `repr`. -/
def pyStr : JVal → String
  | JVal.str s => s
  | v => pyRepr v

/-- Python truthiness of a decoded-JSON value. -/
def pyTruthy : JVal → Bool
  | JVal.str s => !(s == "")
  | JVal.num n => !(n == 0)
  | JVal.bool b => b
  | JVal.null => false
  | JVal.arr xs => !xs.isEmpty
  | JVal.obj fs => !fs.isEmpty

/-- Python `v == "t"` for a string literal `t`: true exactly when `v` is the
string `t` (a non-string JSON value never equals a string in Python). -/
def isStrEq (v : JVal) (t : String) : Bool :=
  match v with
  | JVal.str s => s == t
  | _ => false

/-- Python `d.get(key, dflt)`: succeeds only when the receiver is a dict
(calling `.get` on anything else raises `AttributeError`, modelled `none`). -/
def dictGet (v : JVal) (key : String) (dflt : JVal) : Option JVal :=
  match v with
  | JVal.obj fields => some ((List.lookup key fields).getD dflt)
  | _ => none

/-- Python `str.isspace` characters relevant to `str.strip()`. -/
def isPySpace (c : Char) : Bool :=
  c == ' ' || c == '\t' || c == '\n' || c == '\x0d' || c == '\x0b' || c == '\x0c'

/-- Python `str.strip()` on a character list. -/
def pyStrip (l : List Char) : List Char :=
  List.reverse (List.dropWhile isPySpace (List.reverse (List.dropWhile isPySpace l)))

/-- Python `str.strip()` on a string. -/
def pyStripStr (s : String) : String :=
  String.mk (pyStrip s.data)

/-- Python `s.startswith(pre)`. -/
def pyStartsWith (s pre : String) : Bool :=
  List.isPrefixOf pre.data s.data

/-- Split a string at the first (leftmost) occurrence of `pat`, returning the
text before the occurrence and the text after it. -/
def splitFirst (pat : List Char) : List Char → Option (List Char × List Char)
  | [] => if List.isPrefixOf pat ([] : List Char) then some ([], []) else none
  | c :: rest =>
      if List.isPrefixOf pat (c :: rest) then
        some ([], List.drop pat.length (c :: rest))
      else
        match splitFirst pat rest with
        | some (pre, post) => some (c :: pre, post)
        | none => none

/-- One leftmost, non-greedy match of the regex `op.*?cl` with DOTALL: the
first occurrence of `op`, closed by the first occurrence of `cl` after it.
Returns the text before the match and the text after it.  For the marker
tags used below, `cl` cannot begin strictly inside an occurrence of `op`
(no overlap between the tags), so this is exactly the `re` leftmost match. -/
def matchOnce (op cl : List Char) (s : List Char) : Option (List Char × List Char) :=
  match splitFirst op s with
  | none => none
  | some (pre, afterOpen) =>
      match splitFirst cl afterOpen with
      | none => none
      | some (_, post) => some (pre, post)

/-- All non-overlapping leftmost matches of `op.*?cl` replaced by `repl`,
scanning left to right as `re.sub` does; `fuel` bounds the number of
replacements (each match consumes at least one character, so any
`fuel ≥ length` is enough). -/
def subAll (op cl repl : List Char) : Nat → List Char → List Char
  | 0, s => s
  | fuel + 1, s =>
      match matchOnce op cl s with
      | none => s
      | some (pre, post) => pre ++ repl ++ subAll op cl repl fuel post

/-- Python `re.sub(op + ".*?" + cl, repl, s, flags=re.DOTALL)`. -/
def pySub (op cl repl : String) (s : String) : String :=
  String.mk (subAll op.data cl.data repl.data (s.data.length + 1) s.data)

/-- `clean_text` from the script: remove `<system-reminder>…</system-reminder>`
spans, replace `<function_results>…</function_results>` spans with the
placeholder, then strip surrounding whitespace. -/
def clean_text (s : String) : String :=
  pyStripStr
    (pySub "<function_results>" "</function_results>" "*[Tool output received]*"
      (pySub "<system-reminder>" "</system-reminder>" "" s))

/-- Rendering of one `tool_use` content block (the `tool_use` arm of the
loop in `extract_text_content`).  `none` models the `AttributeError` raised
when the `input` field is present but not a dict. -/
def renderToolUse (fields : List (String × JVal)) : Option (List String) :=
  let tool_name := (List.lookup "name" fields).getD (JVal.str "unknown")
  let tool_input := (List.lookup "input" fields).getD (JVal.obj [])
  if isStrEq tool_name "Bash" then do
    let cmd ← dictGet tool_input "command" (JVal.str "")
    let desc ← dictGet tool_input "description" (JVal.str "")
    if pyTruthy desc then
      some ["\n**[Bash: " ++ pyStr desc ++ "]**\n```bash\n" ++ pyStr cmd ++ "\n```\n"]
    else
      some ["\n```bash\n" ++ pyStr cmd ++ "\n```\n"]
  else if isStrEq tool_name "Write" then do
    let fp ← dictGet tool_input "file_path" (JVal.str "")
    some ["\n**[Write: " ++ pyStr fp ++ "]**\n"]
  else if isStrEq tool_name "Edit" then do
    let fp ← dictGet tool_input "file_path" (JVal.str "")
    some ["\n**[Edit: " ++ pyStr fp ++ "]**\n"]
  else if isStrEq tool_name "Read" then do
    let fp ← dictGet tool_input "file_path" (JVal.str "")
    some ["\n**[Read: " ++ pyStr fp ++ "]**\n"]
  else if isStrEq tool_name "Grep" then do
    let pat ← dictGet tool_input "pattern" (JVal.str "")
    some ["\n**[Grep: `" ++ pyStr pat ++ "`]**\n"]
  else if isStrEq tool_name "Glob" then do
    let pat ← dictGet tool_input "pattern" (JVal.str "")
    some ["\n**[Glob: `" ++ pyStr pat ++ "`]**\n"]
  else
    some ["\n**[Tool: " ++ pyStr tool_name ++ "]**\n"]

/-- Loop body of the list branch of `extract_text_content`: the list of
strings one content block appends to `texts`.  A dict block whose `type`
tag is neither `text` nor `tool_use`, and a block that is neither a dict
nor a string, append nothing.  `none` models the `TypeError` that
`"".join(texts)` raises when a `text` field is not a string. -/
def renderBlock (block : JVal) : Option (List String) :=
  match block with
  | JVal.obj fields =>
      let btype := (List.lookup "type" fields).getD JVal.null
      if isStrEq btype "text" then
        match (List.lookup "text" fields).getD (JVal.str "") with
        | JVal.str s => some [s]
        | _ => none
      else if isStrEq btype "tool_use" then
        renderToolUse fields
      else
        some []
  | JVal.str s => some [s]
  | _ => some []

/-- `extract_text_content` from the script: a plain string is returned
unchanged; a list is the concatenation of its blocks' renderings; any
other content value is stringified with `str(...)`. -/
def extract_text_content : JVal → Option String
  | JVal.str s => some s
  | JVal.arr blocks => do
      let pieces ← List.mapM renderBlock blocks
      some (String.join (List.flatten pieces))
  | v => some (pyStr v)

/-- The fixed title, preamble and horizontal-rule lines the converter puts
at the top of every output document. -/
def headerLines : List String :=
  ["# Development Conversation Transcript",
   "",
   "This is a transcript of the conversation between Dr. Roy C. Davies and Claude",
   "during the development of cosmic-bing-wallpaper.",
   "",
   "**Note:** Tool outputs have been summarized for readability. See the `.jsonl` file",
   "for the complete raw data including all tool inputs and outputs.",
   "",
   "---",
   ""]

/-- The mutable state of the conversion loop: the accumulated output lines,
the emitted-message count, and the last speaker (`None`/`human`/`claude`). -/
structure ConvState where
  md_lines : List String
  message_count : Nat
  last_speaker : Option String
deriving DecidableEq

/-- Initial state of the conversion loop. -/
def initState : ConvState :=
  { md_lines := headerLines, message_count := 0, last_speaker := none }

/-- Emitting one message block: append the speaker header (and blank line)
only when the speaker changed, then append the text and a blank line and
bump the count. -/
def emitBlock (st : ConvState) (speaker header text : String) : ConvState :=
  let st1 :=
    if st.last_speaker = some speaker then st
    else { st with md_lines := st.md_lines ++ [header, ""], last_speaker := some speaker }
  { st1 with md_lines := st1.md_lines ++ [text, ""],
             message_count := st1.message_count + 1 }

/-- The cleaned text of one entry: `entry.get('message', {})`,
`msg.get('content', '')`, `extract_text_content`, `clean_text`. -/
def entryText (entry : JVal) : Option String := do
  let msg ← dictGet entry "message" (JVal.obj [])
  let content ← dictGet msg "content" (JVal.str "")
  let t0 ← extract_text_content content
  some (clean_text t0)

/-- One iteration of the conversion loop over a decoded entry. -/
def processEntry (st : ConvState) (entry : JVal) : Option ConvState := do
  let entry_type ← dictGet entry "type" (JVal.str "")
  if isStrEq entry_type "user" then do
    let text ← entryText entry
    if !(text == "") && !(pyStartsWith text "*[Tool output") then
      some (emitBlock st "human" "## Human" text)
    else
      some st
  else if isStrEq entry_type "assistant" then do
    let text ← entryText entry
    if !(text == "") then
      some (emitBlock st "claude" "## Claude" text)
    else
      some st
  else
    some st

/-- The parsing loop of `convert_jsonl_to_markdown`: keep a line only when
its stripped form is non-empty (blank lines are skipped before decoding)
and it decodes; a line on which `decode` fails is skipped silently. -/
def parseEntries (decode : String → Option JVal) (lines : List String) : List JVal :=
  lines.filterMap (fun l => if pyStripStr l == "" then none else decode l)

/-- Run the conversion loop over an already-decoded entry list. -/
def runEntries (entries : List JVal) : Option ConvState :=
  List.foldlM processEntry initState entries

/-- `convert_jsonl_to_markdown`: parse the lines, fold the conversion loop,
and produce the document (`"\n".join(md_lines)`) and the emitted-message
count that the script reports. -/
def convert_jsonl_to_markdown (decode : String → Option JVal)
    (lines : List String) : Option (String × Nat) := do
  let final ← runEntries (parseEntries decode lines)
  some (String.intercalate "\n" final.md_lines, final.message_count)

/-- If a Python comparison of a value against a string literal succeeds,
the value is that string. -/
theorem isStrEq_eq_true {v : JVal} {t : String} (h : isStrEq v t = true) :
    v = JVal.str t := by
  cases v <;> simp_all [isStrEq]

/-- C5: a record whose message content is a plain string extracts to exactly
that string, unchanged. -/
theorem C5_extract_string_identity (s : String) :
    extract_text_content (JVal.str s) = some s := rfl

/-- C7: a `tool_use` block named `Bash` renders, when the description is
non-empty, as the bold bracketed description label immediately followed by a
fenced `bash` code block containing exactly the command text; with an empty
description only the fenced code block is rendered. -/
theorem C7_bash_rendering (cmd desc : String) :
    extract_text_content (JVal.arr
      [JVal.obj [("type", JVal.str "tool_use"), ("name", JVal.str "Bash"),
                 ("input", JVal.obj [("command", JVal.str cmd),
                                     ("description", JVal.str desc)])]]) =
    some (if desc == "" then "\n```bash\n" ++ cmd ++ "\n```\n"
          else "\n**[Bash: " ++ desc ++ "]**\n```bash\n" ++ cmd ++ "\n```\n") := by
  by_cases h : desc = ""
  · subst h
    rfl
  · have hb : (desc == "") = false := by simp [h]
    simp [extract_text_content, renderBlock, renderToolUse, isStrEq, dictGet,
          List.mapM.loop, List.lookup, pyTruthy, pyStr, hb, String.join]

/-- C8 counterexample: a structured block whose type tag is `image` (neither
`text` nor `tool_use`) contributes nothing to the extracted text — the
extraction yields the empty string, not the non-empty fallback
stringification of the block. -/
theorem C8_counterexample :
    extract_text_content (JVal.arr [JVal.obj [("type", JVal.str "image")]]) = some "" ∧
    pyStr (JVal.obj [("type", JVal.str "image")]) ≠ "" := by
  exact ⟨rfl, by decide⟩

/-- C8 (amended): a structured block whose type tag is neither `text` nor
`tool_use` is ignored inside a block list (it contributes nothing), while the
opaque stringification fallback applies to a whole content value that is
neither a plain string nor a list of blocks. -/
theorem C8_unrecognized_content_fallback :
    (∀ fields : List (String × JVal),
        isStrEq ((List.lookup "type" fields).getD JVal.null) "text" = false →
        isStrEq ((List.lookup "type" fields).getD JVal.null) "tool_use" = false →
        renderBlock (JVal.obj fields) = some []) ∧
    (∀ n : Int, extract_text_content (JVal.num n) = some (pyStr (JVal.num n))) ∧
    (∀ b : Bool, extract_text_content (JVal.bool b) = some (pyStr (JVal.bool b))) ∧
    extract_text_content JVal.null = some (pyStr JVal.null) ∧
    (∀ fs : List (String × JVal),
        extract_text_content (JVal.obj fs) = some (pyStr (JVal.obj fs))) := by
  refine ⟨?_, fun n => rfl, fun b => rfl, rfl, fun fs => rfl⟩
  intro fields h1 h2
  simp [renderBlock, h1, h2]

/-- C8 witness: the amended claim at a concrete unrecognized block. -/
theorem C8_unrecognized_content_fallback_witness :
    renderBlock (JVal.obj [("type", JVal.str "thinking")]) = some [] :=
  C8_unrecognized_content_fallback.1 [("type", JVal.str "thinking")]
    (by decide) (by decide)

/-- C10: a `tool_use` block with no `name` field renders as the generic
label `**[Tool: unknown]**`; with the `input` mapping absent it is treated as
empty, so a missing command, file path or pattern renders as the empty
string (an empty fenced block for `Bash`, an empty path for `Write`, an
empty back-tick-quoted pattern for `Grep`) rather than failing. -/
theorem C10_missing_name_and_input :
    (∀ fields : List (String × JVal),
        isStrEq ((List.lookup "type" fields).getD JVal.null) "tool_use" = true →
        List.lookup "name" fields = none →
        renderBlock (JVal.obj fields) = some ["\n**[Tool: unknown]**\n"]) ∧
    renderBlock (JVal.obj [("type", JVal.str "tool_use"), ("name", JVal.str "Bash")]) =
      some ["\n```bash\n\n```\n"] ∧
    renderBlock (JVal.obj [("type", JVal.str "tool_use"), ("name", JVal.str "Write")]) =
      some ["\n**[Write: ]**\n"] ∧
    renderBlock (JVal.obj [("type", JVal.str "tool_use"), ("name", JVal.str "Grep")]) =
      some ["\n**[Grep: ``]**\n"] := by
  refine ⟨?_, rfl, rfl, rfl⟩
  intro fields h1 h2
  have hty := isStrEq_eq_true h1
  simp [renderBlock, hty, renderToolUse, h2, isStrEq, pyStr]

/-- C10 witness: the generic-label part of the claim at a concrete block
with no `name` field. -/
theorem C10_missing_name_and_input_witness :
    renderBlock (JVal.obj [("type", JVal.str "tool_use"), ("input", JVal.obj [])]) =
      some ["\n**[Tool: unknown]**\n"] :=
  C10_missing_name_and_input.1 [("type", JVal.str "tool_use"), ("input", JVal.obj [])]
    (by decide) rfl

/-- C3 counterexample: a user record whose cleaned text is
`*[Tool output received]* extra` — non-empty and not exactly the tool-output
placeholder — is nevertheless not emitted (the state is unchanged), because
the code gates on the prefix `*[Tool output`, not on exact equality with the
placeholder. -/
theorem C3_counterexample :
    entryText (JVal.obj [("type", JVal.str "user"),
        ("message", JVal.obj [("content",
          JVal.str "<function_results>D</function_results> extra")])]) =
      some "*[Tool output received]* extra" ∧
    "*[Tool output received]* extra" ≠ "" ∧
    "*[Tool output received]* extra" ≠ "*[Tool output received]*" ∧
    processEntry initState (JVal.obj [("type", JVal.str "user"),
        ("message", JVal.obj [("content",
          JVal.str "<function_results>D</function_results> extra")])]) =
      some initState :=
  ⟨rfl, by decide, by decide, rfl⟩

/-- C3 (amended): a user record's cleaned text is emitted (the message count
increments) iff it is non-empty and does not start with the prefix
`*[Tool output`; an assistant record's cleaned text is emitted iff it is
non-empty.  In particular, a user turn whose only content is the placeholder
is not emitted, while an assistant turn whose only content is the
placeholder is emitted. -/
theorem C3_emission_gating :
    (∀ (st : ConvState) (e : JVal) (t : String),
        dictGet e "type" (JVal.str "") = some (JVal.str "user") →
        entryText e = some t →
        (((processEntry st e).map ConvState.message_count =
            some (st.message_count + 1)) ↔
          (!(t == "") && !(pyStartsWith t "*[Tool output")) = true)) ∧
    (∀ (st : ConvState) (e : JVal) (t : String),
        dictGet e "type" (JVal.str "") = some (JVal.str "assistant") →
        entryText e = some t →
        (((processEntry st e).map ConvState.message_count =
            some (st.message_count + 1)) ↔
          (!(t == "")) = true)) ∧
    (∀ (st : ConvState) (e : JVal),
        dictGet e "type" (JVal.str "") = some (JVal.str "user") →
        entryText e = some "*[Tool output received]*" →
        processEntry st e = some st) ∧
    (∀ (st : ConvState) (e : JVal),
        dictGet e "type" (JVal.str "") = some (JVal.str "assistant") →
        entryText e = some "*[Tool output received]*" →
        (processEntry st e).map ConvState.message_count =
          some (st.message_count + 1)) := by
  refine ⟨?_, ?_, ?_, ?_⟩
  · intro st e t h1 h2
    by_cases hne : t = ""
    · subst hne
      simp [processEntry, h1, h2, isStrEq]
    · cases hpw : pyStartsWith t "*[Tool output" with
      | true =>
          simp [processEntry, h1, h2, isStrEq, hne, hpw]
      | false =>
          simp only [processEntry, h1, h2, isStrEq]
          simp [hne, hpw, emitBlock]
          by_cases hs : st.last_speaker = some "human" <;> simp [hs]
  · intro st e t h1 h2
    by_cases hne : t = ""
    · subst hne
      simp [processEntry, h1, h2, isStrEq]
    · simp only [processEntry, h1, h2, isStrEq]
      simp [hne, emitBlock]
      by_cases hs : st.last_speaker = some "claude" <;> simp [hs]
  · intro st e h1 h2
    have hpw : pyStartsWith "*[Tool output received]*" "*[Tool output" = true := rfl
    simp [processEntry, h1, h2, isStrEq, hpw]
  · intro st e h1 h2
    have hne : ("*[Tool output received]*" : String) ≠ "" := by decide
    simp only [processEntry, h1, h2, isStrEq]
    simp [hne, emitBlock]
    by_cases hs : st.last_speaker = some "claude" <;> simp [hs]

/-- C3 witness: the amended claim at concrete records — an assistant turn
whose only content is the tool-output placeholder is emitted. -/
theorem C3_emission_gating_witness :
    (processEntry initState (JVal.obj [("type", JVal.str "assistant"),
        ("message", JVal.obj [("content",
          JVal.str "<function_results>D</function_results>")])])).map
      ConvState.message_count = some 1 :=
  C3_emission_gating.2.2.2 initState
    (JVal.obj [("type", JVal.str "assistant"),
        ("message", JVal.obj [("content",
          JVal.str "<function_results>D</function_results>")])]) rfl rfl

/-- C4: two consecutive same-role records that both emit produce exactly one
section header for that role — the output for a two-record user (resp.
assistant) conversation contains a single `## Human` (resp. `## Claude`)
header followed by both texts; and, in general, a record whose role matches
the previous emitted block's speaker appends its text with no new header. -/
theorem C4_single_header_per_speaker_run :
    (∀ (e1 e2 : JVal) (t1 t2 : String),
        dictGet e1 "type" (JVal.str "") = some (JVal.str "user") →
        dictGet e2 "type" (JVal.str "") = some (JVal.str "user") →
        entryText e1 = some t1 → entryText e2 = some t2 →
        (!(t1 == "") && !(pyStartsWith t1 "*[Tool output")) = true →
        (!(t2 == "") && !(pyStartsWith t2 "*[Tool output")) = true →
        runEntries [e1, e2] =
          some { md_lines := headerLines ++ ["## Human", "", t1, "", t2, ""],
                 message_count := 2, last_speaker := some "human" }) ∧
    (∀ (e1 e2 : JVal) (t1 t2 : String),
        dictGet e1 "type" (JVal.str "") = some (JVal.str "assistant") →
        dictGet e2 "type" (JVal.str "") = some (JVal.str "assistant") →
        entryText e1 = some t1 → entryText e2 = some t2 →
        (!(t1 == "")) = true → (!(t2 == "")) = true →
        runEntries [e1, e2] =
          some { md_lines := headerLines ++ ["## Claude", "", t1, "", t2, ""],
                 message_count := 2, last_speaker := some "claude" }) ∧
    (∀ (st : ConvState) (e : JVal) (t : String),
        dictGet e "type" (JVal.str "") = some (JVal.str "user") →
        entryText e = some t →
        (!(t == "") && !(pyStartsWith t "*[Tool output")) = true →
        st.last_speaker = some "human" →
        processEntry st e =
          some { st with md_lines := st.md_lines ++ [t, ""],
                         message_count := st.message_count + 1 }) ∧
    (∀ (st : ConvState) (e : JVal) (t : String),
        dictGet e "type" (JVal.str "") = some (JVal.str "assistant") →
        entryText e = some t → (!(t == "")) = true →
        st.last_speaker = some "claude" →
        processEntry st e =
          some { st with md_lines := st.md_lines ++ [t, ""],
                         message_count := st.message_count + 1 }) := by
  refine ⟨?_, ?_, ?_, ?_⟩
  · intro e1 e2 t1 t2 h1 h2 ht1 ht2 g1 g2
    simp only [Bool.and_eq_true, Bool.not_eq_true', beq_eq_false_iff_ne, ne_eq] at g1 g2
    simp [runEntries, List.foldlM, processEntry, h1, h2, ht1, ht2, isStrEq,
          g1.1, g1.2, g2.1, g2.2, emitBlock, initState]
  · intro e1 e2 t1 t2 h1 h2 ht1 ht2 g1 g2
    simp only [Bool.not_eq_true', beq_eq_false_iff_ne, ne_eq] at g1 g2
    simp [runEntries, List.foldlM, processEntry, h1, h2, ht1, ht2, isStrEq,
          g1, g2, emitBlock, initState]
  · intro st e t h1 ht g hs
    simp only [Bool.and_eq_true, Bool.not_eq_true', beq_eq_false_iff_ne, ne_eq] at g
    simp [processEntry, h1, ht, isStrEq, g.1, g.2, emitBlock, hs]
  · intro st e t h1 ht g hs
    simp only [Bool.not_eq_true', beq_eq_false_iff_ne, ne_eq] at g
    simp [processEntry, h1, ht, isStrEq, g, emitBlock, hs]

/-- C4 witness: two consecutive user records both emitting produce a single
`## Human` header. -/
theorem C4_single_header_per_speaker_run_witness :
    runEntries
      [JVal.obj [("type", JVal.str "user"),
                 ("message", JVal.obj [("content", JVal.str "hi")])],
       JVal.obj [("type", JVal.str "user"),
                 ("message", JVal.obj [("content", JVal.str "there")])]] =
      some { md_lines := headerLines ++ ["## Human", "", "hi", "", "there", ""],
             message_count := 2, last_speaker := some "human" } :=
  C4_single_header_per_speaker_run.1
    (JVal.obj [("type", JVal.str "user"),
               ("message", JVal.obj [("content", JVal.str "hi")])])
    (JVal.obj [("type", JVal.str "user"),
               ("message", JVal.obj [("content", JVal.str "there")])])
    "hi" "there" rfl rfl rfl rfl rfl rfl

/-- C6: a non-blank line on which decoding fails is skipped silently — the
parsed entry list and the whole conversion result are the same as if the
line were absent, so later lines are still processed and no error reaches
the caller; a line that strips to empty is skipped regardless of what the
decoder would say on it (decoding is never attempted). -/
theorem C6_malformed_lines_skipped :
    (∀ (decode : String → Option JVal) (pre post : List String) (bad : String),
        decode bad = none →
        parseEntries decode (pre ++ bad :: post) = parseEntries decode (pre ++ post) ∧
        convert_jsonl_to_markdown decode (pre ++ bad :: post) =
          convert_jsonl_to_markdown decode (pre ++ post)) ∧
    (∀ (decode : String → Option JVal) (l : String) (rest : List String),
        pyStripStr l = "" →
        parseEntries decode (l :: rest) = parseEntries decode rest) := by
  constructor
  · intro decode pre post bad h
    have hf : (if (pyStripStr bad == "") = true then none else decode bad) = none := by
      cases hsb : (pyStripStr bad == "") <;> simp [h]
    have hpe : parseEntries decode (pre ++ bad :: post) =
        parseEntries decode (pre ++ post) := by
      simp only [parseEntries, List.filterMap_append, List.filterMap_cons, hf]
    exact ⟨hpe, by simp [convert_jsonl_to_markdown, hpe]⟩
  · intro decode l rest h
    simp [parseEntries, List.filterMap_cons, h]

/-- C6 witness: a concrete undecodable line between two good lines changes
nothing, and a blank line is skipped. -/
theorem C6_malformed_lines_skipped_witness :
    (parseEntries (fun s => if s == "u" then some (JVal.obj [("type", JVal.str "user")]) else none)
        (["u"] ++ "nope" :: ["u"]) =
      parseEntries (fun s => if s == "u" then some (JVal.obj [("type", JVal.str "user")]) else none)
        (["u"] ++ ["u"]) ∧
      convert_jsonl_to_markdown
          (fun s => if s == "u" then some (JVal.obj [("type", JVal.str "user")]) else none)
          (["u"] ++ "nope" :: ["u"]) =
        convert_jsonl_to_markdown
          (fun s => if s == "u" then some (JVal.obj [("type", JVal.str "user")]) else none)
          (["u"] ++ ["u"])) ∧
    parseEntries (fun s => if s == "u" then some (JVal.obj [("type", JVal.str "user")]) else none)
        (" " :: ["u"]) =
      parseEntries (fun s => if s == "u" then some (JVal.obj [("type", JVal.str "user")]) else none)
        ["u"] :=
  ⟨C6_malformed_lines_skipped.1
      (fun s => if s == "u" then some (JVal.obj [("type", JVal.str "user")]) else none)
      ["u"] ["u"] "nope" rfl,
   C6_malformed_lines_skipped.2
      (fun s => if s == "u" then some (JVal.obj [("type", JVal.str "user")]) else none)
      " " ["u"] rfl⟩

/-- C9: when no line survives parsing, the conversion still produces the
fixed title, preamble and horizontal separator (and nothing else), and
reports an emitted-message count of 0. -/
theorem C9_empty_input (decode : String → Option JVal) (lines : List String)
    (h : parseEntries decode lines = []) :
    convert_jsonl_to_markdown decode lines =
      some (String.intercalate "\n" headerLines, 0) := by
  simp [convert_jsonl_to_markdown, h, runEntries, List.foldlM, initState]

/-- C9 witness: the empty-input claim at a concrete empty line list. -/
theorem C9_empty_input_witness :
    convert_jsonl_to_markdown (fun _ => none) [] =
      some (String.intercalate "\n" headerLines, 0) :=
  C9_empty_input (fun _ => none) [] rfl

/-- When `pat` occurs at position `a.length` and at no earlier position,
`splitFirst` splits exactly there. -/
theorem splitFirst_at_first (pat : List Char) (hp : pat ≠ []) (a r : List Char)
    (H : ∀ i, i < a.length →
      List.isPrefixOf pat (List.drop i (a ++ (pat ++ r))) = false) :
    splitFirst pat (a ++ (pat ++ r)) = some (a, r) := by
  induction a with
  | nil =>
      cases pat with
      | nil => exact absurd rfl hp
      | cons p pt =>
          have hpre : List.isPrefixOf (p :: pt) ((p :: pt) ++ r) = true := by
            rw [List.isPrefixOf_iff_prefix]
            exact List.prefix_append _ _
          simp only [List.nil_append] at hpre ⊢
          rw [List.cons_append] at hpre ⊢
          simp only [splitFirst, hpre, if_true]
          rw [← List.cons_append, List.drop_left]
  | cons x a2 ih =>
      have h0 : List.isPrefixOf pat (x :: (a2 ++ (pat ++ r))) = false := by
        have h := H 0 (by simp)
        simpa using h
      have H2 : ∀ i, i < a2.length →
          List.isPrefixOf pat (List.drop i (a2 ++ (pat ++ r))) = false := by
        intro i hi
        have h := H (i + 1) (by simp only [List.length_cons]; omega)
        simpa [List.drop_succ_cons] using h
      rw [List.cons_append]
      simp only [splitFirst, h0, Bool.false_eq_true, if_false, ih H2]

/-- The leftmost non-greedy match of `op.*?cl` in
`a ++ op ++ b ++ cl ++ c` is the designated pair, when no earlier `op`
occurrence exists and no earlier `cl` occurrence closes it sooner. -/
theorem matchOnce_at (op cl a b c : List Char) (hop : op ≠ []) (hcl : cl ≠ [])
    (H1 : ∀ i, i < a.length →
      List.isPrefixOf op (List.drop i (a ++ (op ++ (b ++ (cl ++ c))))) = false)
    (H2 : ∀ i, i < b.length →
      List.isPrefixOf cl (List.drop i (b ++ (cl ++ c))) = false) :
    matchOnce op cl (a ++ (op ++ (b ++ (cl ++ c)))) = some (a, c) := by
  simp only [matchOnce, splitFirst_at_first op hop a (b ++ (cl ++ c)) H1,
             splitFirst_at_first cl hcl b c H2]

/-- A string with no match is left unchanged by `subAll`, for every fuel. -/
theorem subAll_matchNone (op cl repl : List Char) (s : List Char)
    (h : matchOnce op cl s = none) (f : Nat) : subAll op cl repl f s = s := by
  cases f with
  | zero => rfl
  | succ n => simp [subAll, h]

/-- `pySub` on an explicitly built string. -/
theorem pySub_mk (op cl repl : String) (l : List Char) :
    pySub op cl repl (String.mk l) =
      String.mk (subAll op.data cl.data repl.data (l.length + 1) l) := rfl

/-- C1: `clean_text` on a text containing a paired `<system-reminder>` /
`</system-reminder>` span (the first open marker of the text, closed by the
first close marker after it, with no further pair afterwards and no
`function_results` pair elsewhere) removes the whole delimited span, both
marker tokens included, joining the surrounding text `a` and `c`. -/
theorem C1_system_reminder_removed (a b c : List Char)
    (H1 : ∀ i, i < a.length →
      List.isPrefixOf "<system-reminder>".data
        (List.drop i
          (a ++ ("<system-reminder>".data ++ (b ++ ("</system-reminder>".data ++ c))))) =
        false)
    (H2 : ∀ i, i < b.length →
      List.isPrefixOf "</system-reminder>".data
        (List.drop i (b ++ ("</system-reminder>".data ++ c))) = false)
    (H3 : matchOnce "<system-reminder>".data "</system-reminder>".data c = none)
    (H4 : matchOnce "<function_results>".data "</function_results>".data (a ++ c) = none) :
    clean_text
        (String.mk
          (a ++ ("<system-reminder>".data ++ (b ++ ("</system-reminder>".data ++ c))))) =
      String.mk (pyStrip (a ++ c)) := by
  have hop : "<system-reminder>".data ≠ [] := by decide
  have hcl : "</system-reminder>".data ≠ [] := by decide
  have hm := matchOnce_at "<system-reminder>".data "</system-reminder>".data
    a b c hop hcl H1 H2
  have hemp : ("" : String).data = [] := rfl
  have hinner : pySub "<system-reminder>" "</system-reminder>" ""
      (String.mk
        (a ++ ("<system-reminder>".data ++ (b ++ ("</system-reminder>".data ++ c))))) =
      String.mk (a ++ c) := by
    rw [pySub_mk]
    simp only [subAll, hm, hemp, subAll_matchNone _ _ _ _ H3, List.append_nil]
  have houter : pySub "<function_results>" "</function_results>"
      "*[Tool output received]*" (String.mk (a ++ c)) = String.mk (a ++ c) := by
    rw [pySub_mk]
    rw [subAll_matchNone _ _ _ _ H4]
  simp only [clean_text, hinner, houter]
  rfl

/-- C1 witness: the span (markers included) around `SECRET` is removed and
the surrounding text joined. -/
theorem C1_system_reminder_removed_witness :
    clean_text
        (String.mk
          ("Hello ".data ++ ("<system-reminder>".data ++
            ("SECRET".data ++ ("</system-reminder>".data ++ "world".data))))) =
      String.mk (pyStrip ("Hello ".data ++ "world".data)) :=
  C1_system_reminder_removed "Hello ".data "SECRET".data "world".data
    (by decide) (by decide) rfl rfl

/-- C2: `clean_text` on a text containing a paired `<function_results>` /
`</function_results>` span (first open marker, first close after it, no
further pair afterwards, no `system-reminder` pair anywhere) replaces the
whole delimited span, markers included, by the placeholder
`*[Tool output received]*`, with the same span matching as for
`system-reminder`. -/
theorem C2_function_results_placeholder (a b c : List Char)
    (H0 : matchOnce "<system-reminder>".data "</system-reminder>".data
      (a ++ ("<function_results>".data ++ (b ++ ("</function_results>".data ++ c)))) = none)
    (H1 : ∀ i, i < a.length →
      List.isPrefixOf "<function_results>".data
        (List.drop i
          (a ++ ("<function_results>".data ++ (b ++ ("</function_results>".data ++ c))))) =
        false)
    (H2 : ∀ i, i < b.length →
      List.isPrefixOf "</function_results>".data
        (List.drop i (b ++ ("</function_results>".data ++ c))) = false)
    (H3 : matchOnce "<function_results>".data "</function_results>".data c = none) :
    clean_text
        (String.mk
          (a ++ ("<function_results>".data ++ (b ++ ("</function_results>".data ++ c))))) =
      String.mk (pyStrip (a ++ ("*[Tool output received]*".data ++ c))) := by
  have hop : "<function_results>".data ≠ [] := by decide
  have hcl : "</function_results>".data ≠ [] := by decide
  have hm := matchOnce_at "<function_results>".data "</function_results>".data
    a b c hop hcl H1 H2
  have hinner : pySub "<system-reminder>" "</system-reminder>" ""
      (String.mk
        (a ++ ("<function_results>".data ++ (b ++ ("</function_results>".data ++ c))))) =
      String.mk
        (a ++ ("<function_results>".data ++ (b ++ ("</function_results>".data ++ c)))) := by
    rw [pySub_mk]
    rw [subAll_matchNone _ _ _ _ H0]
  have houter : pySub "<function_results>" "</function_results>"
      "*[Tool output received]*"
      (String.mk
        (a ++ ("<function_results>".data ++ (b ++ ("</function_results>".data ++ c))))) =
      String.mk (a ++ ("*[Tool output received]*".data ++ c)) := by
    rw [pySub_mk]
    simp only [subAll, hm, subAll_matchNone _ _ _ _ H3, List.append_assoc]
  simp only [clean_text, hinner, houter]
  rfl

/-- C2 witness: the `DATA` span with its markers becomes the placeholder. -/
theorem C2_function_results_placeholder_witness :
    clean_text
        (String.mk
          ("x".data ++ ("<function_results>".data ++
            ("DATA".data ++ ("</function_results>".data ++ "y".data))))) =
      String.mk (pyStrip ("x".data ++ ("*[Tool output received]*".data ++ "y".data))) :=
  C2_function_results_placeholder "x".data "DATA".data "y".data
    rfl (by decide) (by decide) rfl
